import Mathlib

/-
Verification of the geotiff retrieval binding (geopyspark/geotrellis/geotiff.py).

The module under verification is a parameter-marshalling binding: it collects
caller options, validates the S3-credential constraint, and forwards a call
across a bridge to an external raster engine.  The embedding below translates
that module line by line.  Collaborators that live outside src
(the constants module, the LayerType enum, and the s3 utilities module with
Credentials, is_s3_uri and set_s3_credentials) are modelled from the spec and
marked as such in their doc comments.  The external engine is a parameter of
the embedded function: its behaviour in one invocation is an Except value.
Observable effects (engine invocations and mutations of the shared
backend-credential slot) are recorded as an event trace.
-/

namespace Geotiff

/-- Errors a call to get can surface: the RuntimeError raised by
validate_s3_credentials, the AttributeError raised by calling split on a
list value, the ValueError raised by the LayerType enum on an unknown tag,
the KeyError raised by dict.pop on a missing key, and a failure propagated
verbatim from the external engine. -/
inductive PyError where
  | runtimeError (msg : String)
  | attributeError (msg : String)
  | valueError (msg : String)
  | keyError (key : String)
  | engineFailure (msg : String)
  deriving DecidableEq, Repr

/-- Modelled from the spec: the Credentials class of the s3 utilities module
is not under src.  The spec describes it as an opaque bundle of access and
secret identifiers; the call site in geotiff.py inspects the supplied value
only through its truthiness (the `if credentials` test), and in the dynamic
source language any value may be supplied for the parameter, so the model
keeps exactly the truthiness of the supplied object. -/
structure Credentials where
  isTruthy : Bool
  deriving DecidableEq, Repr

/-- The uri argument of get: a single URI string or a list of URI strings
(the docstring declares the type str or [str]). -/
inductive PyUri where
  | str (s : String)
  | list (xs : List String)
  deriving DecidableEq, Repr

/-- Values stored in the inputs dictionary built from locals(). -/
inductive PyVal where
  | int (n : Int)
  | str (s : String)
  | uri (u : PyUri)
  | creds (c : Credentials)
  deriving DecidableEq, Repr

/-- Modelled from the spec: default value of max_tile_size from the constants
module (not under src); only its being non-None matters here. -/
def DEFAULT_MAX_TILE_SIZE : Int := 256

/-- Modelled from the spec: default partition-byte count from the constants
module (not under src); only its being non-None matters here. -/
def DEFAULT_PARTITION_BYTES : Int := 1343488

/-- Modelled from the spec: default chunk size from the constants module
(not under src); only its being non-None matters here. -/
def DEFAULT_CHUNK_SIZE : Int := 65536

/-- Modelled from the spec: default GeoTiff time tag from the constants
module (not under src). -/
def DEFAULT_GEOTIFF_TIME_TAG : String := "TIFFTAG_DATETIME"

/-- Modelled from the spec: default GeoTiff time format from the constants
module (not under src). -/
def DEFAULT_GEOTIFF_TIME_FORMAT : String := "yyyy:MM:dd HH:mm:ss"

/-- Modelled from the spec: default S3 client selector from the constants
module (not under src). -/
def DEFAULT_S3_CLIENT : String := "default"

/-- The keyword parameters of get, in the order of the source signature.
A field of Option type is None in the call exactly when it is Option.none
here; the defaults mirror the source defaults.  layer_type is kept as the
string form of the tag (the enum accepts an enum member or its string
value). -/
structure GetArgs where
  layer_type : String
  uri : PyUri
  crs : Option PyVal := none
  max_tile_size : Option Int := some DEFAULT_MAX_TILE_SIZE
  num_partitions : Option Int := none
  chunk_size : Option Int := some DEFAULT_CHUNK_SIZE
  partition_bytes : Option Int := some DEFAULT_PARTITION_BYTES
  time_tag : Option String := some DEFAULT_GEOTIFF_TIME_TAG
  time_format : Option String := some DEFAULT_GEOTIFF_TIME_FORMAT
  delimiter : Option String := none
  s3_client : Option String := some DEFAULT_S3_CLIENT
  s3_credentials : Option Credentials := none
  deriving DecidableEq, Repr

/-- Semantics of the Python expression s.split( colon )[0] on the character
list of s: the longest prefix that stops at the first colon. -/
def splitHeadChars : List Char → List Char
  | [] => []
  | c :: cs => if c = ':' then [] else c :: splitHeadChars cs

/-- Embedding of s.split( colon )[0] for a Python string s. -/
def pySplitHead (s : String) : String :=
  String.mk (splitHeadChars s.data)

/-- Message of the AttributeError raised by uri.split when uri is a list. -/
def listSplitMessage : String :=
  "list object has no attribute split"

/-- Embedding of the source line uri_type = uri.split( colon )[0]: on a
string it yields the scheme token; on a list value it raises AttributeError,
since a list has no split method. -/
def uriSplitHead : PyUri → Except PyError String
  | .str s => .ok (pySplitHead s)
  | .list _ => .error (.attributeError listSplitMessage)

/-- Modelled from the spec: the URI schemes the s3 utilities module (not
under src) recognizes as the object-store backend. -/
def s3Schemes : List String := ["s3", "s3a", "s3n"]

/-- Modelled from the spec: is_s3_uri of the s3 utilities module (not under
src).  The spec states that only the first entry of a list is checked for
credential validation, so on a list the scheme of the first element decides. -/
def is_s3_uri : PyUri → Bool
  | .str s => s3Schemes.contains (pySplitHead s)
  | .list [] => false
  | .list (x :: _) => s3Schemes.contains (pySplitHead x)

/-- Single-quote character, used by the Python repr of a string list. -/
def squote : String := String.singleton (Char.ofNat 39)

/-- Embedding of str(uri) as used by the format call in the error message:
a string formats as itself, a list as its bracketed repr. -/
def pyStr : PyUri → String
  | .str s => s
  | .list xs => "[" ++ String.intercalate ", " (xs.map (fun s => squote ++ s ++ squote)) ++ "]"

/-- The message of the RuntimeError raised by validate_s3_credentials;
it names the offending URI. -/
def s3ErrorMessage (uri : PyUri) : String :=
  "S3 credentials were provided to geotiff.get, but an AWS S3 URI was not specified (URI: " ++ pyStr uri ++ ")"

/-- Embedding of the private validator at the bottom of geotiff.py: the
check fires when the credentials value is truthy and the uri is not an S3
uri, mirroring the conditional of the source. -/
def validate_s3_credentials (uri : PyUri) (credentials : Credentials) : Except PyError Unit :=
  if credentials.isTruthy && !(is_s3_uri uri) then
    .error (.runtimeError (s3ErrorMessage uri))
  else
    .ok ()

/-- Embedding of uris = (uri if isinstance(uri, list) else [uri]). -/
def normalizeUris : PyUri → List String
  | .str s => [s]
  | .list xs => xs

/-- Modelled from the spec: LayerType resolution, LayerType(tag)._key_name(False),
from the constants module (not under src).  The two variants are the spatial
and the space-time layer types; an unknown tag raises the invalid-enumeration
error.  The key names are representative canonical names for the two variants
with the boundable flag fixed to false. -/
def layerTypeKey (tag : String) : Except PyError String :=
  if tag = "spatial" then .ok "ProjectedExtent"
  else if tag = "spacetime" then .ok "TemporalProjectedExtent"
  else .error (.valueError (tag ++ " is not a valid LayerType"))

/-- One entry of the inputs dictionary: present exactly when the value is
not None. -/
def optEntry (k : String) (v : Option PyVal) : List (String × PyVal) :=
  match v with
  | none => []
  | some x => [(k, x)]

/-- Embedding of inputs = (dictionary of locals() entries whose value is not
None), in the parameter order of the signature. -/
def inputsOf (a : GetArgs) : List (String × PyVal) :=
  optEntry "layer_type" (some (.str a.layer_type)) ++
  optEntry "uri" (some (.uri a.uri)) ++
  optEntry "crs" a.crs ++
  optEntry "max_tile_size" (a.max_tile_size.map PyVal.int) ++
  optEntry "num_partitions" (a.num_partitions.map PyVal.int) ++
  optEntry "chunk_size" (a.chunk_size.map PyVal.int) ++
  optEntry "partition_bytes" (a.partition_bytes.map PyVal.int) ++
  optEntry "time_tag" (a.time_tag.map PyVal.str) ++
  optEntry "time_format" (a.time_format.map PyVal.str) ++
  optEntry "delimiter" (a.delimiter.map PyVal.str) ++
  optEntry "s3_client" (a.s3_client.map PyVal.str) ++
  optEntry "s3_credentials" (a.s3_credentials.map PyVal.creds)

/-- Effect of dict.pop on the key set: the entry for the key is removed. -/
def removeKey (k : String) (d : List (String × PyVal)) : List (String × PyVal) :=
  d.filter (fun p => p.1 != k)

/-- The inputs dictionary as it stands at the bridge call, after the four
pops of the source (layer_type, partition_bytes, uri, s3_credentials). -/
def engineOptions (a : GetArgs) : List (String × PyVal) :=
  removeKey "s3_credentials" (removeKey "uri" (removeKey "partition_bytes" (removeKey "layer_type" (inputsOf a))))

/-- Observable events of one call: an installation of override credentials
into the shared backend-credential slot, the invocation of the external
engine with its four data arguments, and the restoration of the prior
slot contents. -/
inductive Event where
  | credSet (c : Credentials) (scheme : String)
  | engineCall (key : String) (uris : List String)
      (options : List (String × PyVal)) (partitionBytes : String)
  | credRestore
  deriving DecidableEq, Repr

/-- Modelled from the spec: the set_s3_credentials context manager of the s3
utilities module (not under src).  Per the spec it is a guaranteed-release
scope: with credentials absent it is a no-op around the body; with
credentials present it installs them for the backend scheme, runs the body,
and restores the prior slot contents on every exit path, whether the body
returns or raises.  The body is represented by its event list. -/
def set_s3_credentials (creds : Option Credentials) (uriType : String)
    (bodyEvents : List Event) : List Event :=
  match creds with
  | none => bodyEvents
  | some c => Event.credSet c uriType :: bodyEvents ++ [Event.credRestore]

/-- Replay semantics of the event trace over the shared backend-credential
slot: credSet pushes the current contents and installs the override,
credRestore pops and reinstates the saved contents, an engine call leaves
the slot alone.  The slot visible after a call is the replay of the trace
over the prior contents. -/
def replay (slot : Option Credentials) (stack : List (Option Credentials)) :
    List Event → Option Credentials
  | [] => slot
  | Event.credSet c _ :: rest => replay (some c) (slot :: stack) rest
  | Event.credRestore :: rest =>
      match stack with
      | [] => replay slot [] rest
      | p :: ps => replay p ps rest
  | Event.engineCall _ _ _ _ :: rest => replay slot stack rest

/-- The result object of the source: RasterLayer(layer_type, srdd). -/
structure RasterLayer where
  layer_type : String
  srdd : Nat
  deriving DecidableEq, Repr

/-- Observable outcome of one call to get: the returned value or raised
error, the event trace, and the two intermediates the source computes
before the scheme split (the resolved backend key and the normalized uri
list), recorded when their lines have executed. -/
structure GetOutput where
  result : Except PyError RasterLayer
  events : List Event
  keyResolved : Option String := none
  urisNormalized : Option (List String) := none

/-- Embedding of get, following the source line by line.  The engine
parameter is the behaviour of the external bridge call in this invocation:
ok with the srdd handle, or error with the propagated failure.  Stages, in
source order: LayerType resolution (ValueError on an unknown tag),
str(inputs.pop of partition_bytes) (KeyError when the caller passed None),
normalization of the uri argument, the try/except pop of s3_credentials
with validation in the else clause, the uri.split line (AttributeError when
the uri argument is a list), and the bridge call inside the
set_s3_credentials scope. -/
def get (a : GetArgs) (engine : Except String Nat) : GetOutput :=
  match layerTypeKey a.layer_type with
  | .error e => { result := .error e, events := [] }
  | .ok key =>
    match a.partition_bytes with
    | none => { result := .error (.keyError "partition_bytes"), events := [],
                keyResolved := some key }
    | some pb =>
      let partitionBytes := toString pb
      let uris := normalizeUris a.uri
      let validated : Except PyError Unit :=
        match a.s3_credentials with
        | none => .ok ()
        | some c => validate_s3_credentials a.uri c
      match validated with
      | .error e =>
          { result := .error e, events := [],
            keyResolved := some key, urisNormalized := some uris }
      | .ok _ =>
        match uriSplitHead a.uri with
        | .error e =>
            { result := .error e, events := [],
              keyResolved := some key, urisNormalized := some uris }
        | .ok uriType =>
          let callEvent := Event.engineCall key uris (engineOptions a) partitionBytes
          let events := set_s3_credentials a.s3_credentials uriType [callEvent]
          match engine with
          | .ok srddHandle =>
              { result := .ok { layer_type := a.layer_type, srdd := srddHandle },
                events := events,
                keyResolved := some key, urisNormalized := some uris }
          | .error msg =>
              { result := .error (.engineFailure msg),
                events := events,
                keyResolved := some key, urisNormalized := some uris }

theorem splitHeadChars_eq_takeWhile (cs : List Char) :
    splitHeadChars cs = cs.takeWhile (fun c => c != ':') := by
  induction cs with
  | nil => rfl
  | cons c cs ih =>
      by_cases h : c = ':'
      · simp [splitHeadChars, List.takeWhile, h]
      · have hb : (c != ':') = true := by
          simp only [bne_iff_ne, ne_eq]
          exact h
        simp [splitHeadChars, List.takeWhile, h, hb, ih]

theorem removeKey_append (k : String) (d1 d2 : List (String × PyVal)) :
    removeKey k (d1 ++ d2) = removeKey k d1 ++ removeKey k d2 := by
  simp [removeKey, List.filter_append]

theorem removeKey_optEntry (k k2 : String) (v : Option PyVal) :
    removeKey k (optEntry k2 v) =
      if (k2 != k) = true then optEntry k2 v else [] := by
  cases v <;> cases hb : (k2 != k) <;> simp [removeKey, optEntry, List.filter, hb]

theorem engineOptions_eq (a : GetArgs) :
    engineOptions a =
      optEntry "crs" a.crs ++
      optEntry "max_tile_size" (a.max_tile_size.map PyVal.int) ++
      optEntry "num_partitions" (a.num_partitions.map PyVal.int) ++
      optEntry "chunk_size" (a.chunk_size.map PyVal.int) ++
      optEntry "time_tag" (a.time_tag.map PyVal.str) ++
      optEntry "time_format" (a.time_format.map PyVal.str) ++
      optEntry "delimiter" (a.delimiter.map PyVal.str) ++
      optEntry "s3_client" (a.s3_client.map PyVal.str) := by
  simp [engineOptions, inputsOf, removeKey_append, removeKey_optEntry]

theorem lookup_optEntry_append (k k2 : String) (v : Option PyVal)
    (rest : List (String × PyVal)) :
    List.lookup k (optEntry k2 v ++ rest) =
      if ((k == k2) && v.isSome) = true then v else List.lookup k rest := by
  cases v <;> cases hb : (k == k2) <;> simp [optEntry, List.lookup, hb]


theorem lookup_optEntry (k k2 : String) (v : Option PyVal) :
    List.lookup k (optEntry k2 v) =
      if ((k == k2) && v.isSome) = true then v else none := by
  cases v <;> cases hb : (k == k2) <;> simp [optEntry, List.lookup, hb]

/-- C1 (amended): when s3_credentials is supplied as a truthy value and the
uri is not an S3 uri, get raises the RuntimeError naming the offending URI
before the bridge call, and the engine is never invoked. -/
theorem c1_truthy_credentials_non_s3_rejected
    (a : GetArgs) (engine : Except String Nat) (c : Credentials) (k : String) (pb : Int)
    (hc : a.s3_credentials = some c)
    (htruthy : c.isTruthy = true)
    (hns3 : is_s3_uri a.uri = false)
    (hk : layerTypeKey a.layer_type = Except.ok k)
    (hpb : a.partition_bytes = some pb) :
    (get a engine).result = Except.error (PyError.runtimeError (s3ErrorMessage a.uri)) ∧
    (∀ key uris os pbs, Event.engineCall key uris os pbs ∉ (get a engine).events) ∧
    (get a engine).events = [] := by
  have hval : validate_s3_credentials a.uri c =
      Except.error (PyError.runtimeError (s3ErrorMessage a.uri)) := by
    simp [validate_s3_credentials, htruthy, hns3]
  have hget : get a engine =
      { result := Except.error (PyError.runtimeError (s3ErrorMessage a.uri)),
        events := [], keyResolved := some k,
        urisNormalized := some (normalizeUris a.uri) } := by
    simp [get, hk, hpb, hc, hval]
  simp [hget]

/-- C2: whenever the credential scope is entered, the prior configuration is
restored exactly once, on the normal and on the raising path alike. -/
theorem c2_credential_scope_restored_exactly_once
    (a : GetArgs) (engine : Except String Nat) (slot0 : Option Credentials)
    (c : Credentials) (su k : String) (pb : Int)
    (hc : a.s3_credentials = some c)
    (hu : a.uri = PyUri.str su)
    (hk : layerTypeKey a.layer_type = Except.ok k)
    (hpb : a.partition_bytes = some pb)
    (hv : validate_s3_credentials a.uri c = Except.ok ()) :
    (get a engine).events =
      [Event.credSet c (pySplitHead su),
       Event.engineCall k (normalizeUris a.uri) (engineOptions a) (toString pb),
       Event.credRestore] ∧
    List.count Event.credRestore (get a engine).events = 1 ∧
    replay slot0 [] (get a engine).events = slot0 := by
  have hevents : (get a engine).events =
      [Event.credSet c (pySplitHead su),
       Event.engineCall k (normalizeUris a.uri) (engineOptions a) (toString pb),
       Event.credRestore] := by
    rw [hu] at hv
    cases engine <;> simp [get, hk, hpb, hc, hv, hu, uriSplitHead, set_s3_credentials]
  refine ⟨hevents, ?_, ?_⟩
  · rw [hevents]
    simp [List.count_cons, List.count_nil, beq_iff_eq]
  · rw [hevents]
    simp [replay]

/-- C3: when s3_credentials is None, the shared credential slot is never
touched: no install or restore event occurs and the slot is unchanged. -/
theorem c3_no_credentials_no_mutation
    (a : GetArgs) (engine : Except String Nat) (slot0 : Option Credentials)
    (h : a.s3_credentials = none) :
    (∀ c sch, Event.credSet c sch ∉ (get a engine).events) ∧
    (Event.credRestore ∉ (get a engine).events) ∧
    replay slot0 [] (get a engine).events = slot0 := by
  cases hlt : layerTypeKey a.layer_type with
  | error e => simp [get, hlt, replay]
  | ok k =>
    cases hpb : a.partition_bytes with
    | none => simp [get, hlt, hpb, replay]
    | some pb =>
      cases hus : uriSplitHead a.uri with
      | error e => simp [get, hlt, hpb, h, hus, replay]
      | ok ut =>
        cases engine <;> simp [get, hlt, hpb, h, hus, set_s3_credentials, replay]

/-- C4: an optional parameter appears in the forwarded option mapping with
its supplied value exactly when it was supplied as a non-None value; falsy
real values such as 0 or the empty string are kept. -/
theorem c4_option_mapping_presence (a : GetArgs) :
    List.lookup "crs" (engineOptions a) = a.crs ∧
    List.lookup "max_tile_size" (engineOptions a) = a.max_tile_size.map PyVal.int ∧
    List.lookup "num_partitions" (engineOptions a) = a.num_partitions.map PyVal.int ∧
    List.lookup "chunk_size" (engineOptions a) = a.chunk_size.map PyVal.int ∧
    List.lookup "time_tag" (engineOptions a) = a.time_tag.map PyVal.str ∧
    List.lookup "time_format" (engineOptions a) = a.time_format.map PyVal.str ∧
    List.lookup "delimiter" (engineOptions a) = a.delimiter.map PyVal.str ∧
    List.lookup "s3_client" (engineOptions a) = a.s3_client.map PyVal.str := by
  refine ⟨?_, ?_, ?_, ?_, ?_, ?_, ?_, ?_⟩
  · cases h : a.crs <;> simp [engineOptions_eq, lookup_optEntry_append, lookup_optEntry, h]
  · cases h : a.max_tile_size <;> simp [engineOptions_eq, lookup_optEntry_append, lookup_optEntry, h]
  · cases h : a.num_partitions <;> simp [engineOptions_eq, lookup_optEntry_append, lookup_optEntry, h]
  · cases h : a.chunk_size <;> simp [engineOptions_eq, lookup_optEntry_append, lookup_optEntry, h]
  · cases h : a.time_tag <;> simp [engineOptions_eq, lookup_optEntry_append, lookup_optEntry, h]
  · cases h : a.time_format <;> simp [engineOptions_eq, lookup_optEntry_append, lookup_optEntry, h]
  · cases h : a.delimiter <;> simp [engineOptions_eq, lookup_optEntry_append, lookup_optEntry, h]
  · cases h : a.s3_client <;> simp [engineOptions_eq, lookup_optEntry_append, lookup_optEntry, h]


/-- C5 (amended): when the uri argument is a list, the source attempts the
scheme split on the list value itself rather than on an element of the
normalized sequence; a list has no split method, so the call raises an
AttributeError and the engine is never invoked. -/
theorem c5_list_scheme_split_raises
    (a : GetArgs) (engine : Except String Nat) (xs : List String) (k : String) (pb : Int)
    (hu : a.uri = PyUri.list xs)
    (hc : a.s3_credentials = none)
    (hk : layerTypeKey a.layer_type = Except.ok k)
    (hpb : a.partition_bytes = some pb) :
    uriSplitHead a.uri = Except.error (PyError.attributeError listSplitMessage) ∧
    (get a engine).result = Except.error (PyError.attributeError listSplitMessage) ∧
    (get a engine).events = [] ∧
    (get a engine).urisNormalized = some xs := by
  refine ⟨by simp [hu, uriSplitHead], ?_, ?_, ?_⟩ <;>
    simp [get, hk, hpb, hc, hu, uriSplitHead, normalizeUris]

/-- C7: a single string uri and the one-element list holding the same string
yield the same normalized uri list and the same resolved backend key. -/
theorem c7_string_vs_singleton_list
    (a : GetArgs) (u : String) (engine : Except String Nat)
    (hu : a.uri = PyUri.str u) :
    (get a engine).keyResolved =
      (get { a with uri := PyUri.list [u] } engine).keyResolved ∧
    (get a engine).urisNormalized =
      (get { a with uri := PyUri.list [u] } engine).urisNormalized := by
  have hiss3 : is_s3_uri (PyUri.list [u]) = is_s3_uri (PyUri.str u) := rfl
  cases hlt : layerTypeKey a.layer_type with
  | error e => simp [get, hlt]
  | ok k =>
    cases hpb : a.partition_bytes with
    | none => simp [get, hlt, hpb]
    | some pb =>
      cases hcred : a.s3_credentials with
      | none =>
          cases engine <;>
            simp [get, hlt, hpb, hcred, hu, uriSplitHead, normalizeUris, set_s3_credentials]
      | some c =>
          cases hcond : (c.isTruthy && !(is_s3_uri (PyUri.str u))) <;>
            cases engine <;>
              simp [get, hlt, hpb, hcred, hu, validate_s3_credentials, hiss3, hcond,
                    uriSplitHead, normalizeUris, set_s3_credentials]

/-- C8: for a string uri, the derived scheme token is the prefix of the
original string up to and not including the first colon (the whole string
when no colon occurs), and the lone string is wrapped into a one-element
sequence. -/
theorem c8_scheme_token_and_wrapping (s : String) :
    uriSplitHead (PyUri.str s) =
      Except.ok (String.mk (s.data.takeWhile (fun c => c != ':'))) ∧
    normalizeUris (PyUri.str s) = [s] := by
  refine ⟨?_, rfl⟩
  simp [uriSplitHead, pySplitHead, splitHeadChars_eq_takeWhile]

/-- C9: the forwarded option mapping holds none of the keys consumed as
dedicated positional arguments, and the partition-byte count reaches the
engine separately as its string representation. -/
theorem c9_consumed_keys_absent
    (a : GetArgs) (engine : Except String Nat) (pb : Int)
    (hpb : a.partition_bytes = some pb) :
    List.lookup "layer_type" (engineOptions a) = none ∧
    List.lookup "uri" (engineOptions a) = none ∧
    List.lookup "s3_credentials" (engineOptions a) = none ∧
    List.lookup "partition_bytes" (engineOptions a) = none ∧
    (∀ key uris os pbs, Event.engineCall key uris os pbs ∈ (get a engine).events →
      os = engineOptions a ∧ pbs = toString pb) := by
  refine ⟨?_, ?_, ?_, ?_, ?_⟩
  · simp [engineOptions_eq, lookup_optEntry_append, lookup_optEntry]
  · simp [engineOptions_eq, lookup_optEntry_append, lookup_optEntry]
  · simp [engineOptions_eq, lookup_optEntry_append, lookup_optEntry]
  · simp [engineOptions_eq, lookup_optEntry_append, lookup_optEntry]
  · intro key uris os pbs hmem
    cases hlt : layerTypeKey a.layer_type with
    | error e => simp [get, hlt] at hmem
    | ok k =>
      cases hcred : a.s3_credentials with
      | none =>
        cases hus : uriSplitHead a.uri with
        | error e => simp [get, hlt, hpb, hcred, hus] at hmem
        | ok ut =>
          cases engine <;>
          · simp [get, hlt, hpb, hcred, hus, set_s3_credentials] at hmem
            exact ⟨hmem.2.2.1, hmem.2.2.2⟩
      | some c =>
        cases hv : validate_s3_credentials a.uri c with
        | error e => simp [get, hlt, hpb, hcred, hv] at hmem
        | ok u =>
          cases hus : uriSplitHead a.uri with
          | error e => simp [get, hlt, hpb, hcred, hv, hus] at hmem
          | ok ut =>
            cases engine <;>
            · simp [get, hlt, hpb, hcred, hv, hus, set_s3_credentials] at hmem
              exact ⟨hmem.2.2.1, hmem.2.2.2⟩

/-- C10: a falsy but non-None s3_credentials value bypasses the
configuration check: even on a non-S3 uri no RuntimeError is raised, and the
falsy credentials object is passed into the credential scope around the
engine call. -/
theorem c10_falsy_credentials_bypass_validation
    (a : GetArgs) (engine : Except String Nat)
    (c : Credentials) (su k : String) (pb : Int)
    (hc : a.s3_credentials = some c)
    (hfalsy : c.isTruthy = false)
    (hu : a.uri = PyUri.str su)
    (hns3 : is_s3_uri a.uri = false)
    (hk : layerTypeKey a.layer_type = Except.ok k)
    (hpb : a.partition_bytes = some pb) :
    (get a engine).events =
      [Event.credSet c (pySplitHead su),
       Event.engineCall k (normalizeUris a.uri) (engineOptions a) (toString pb),
       Event.credRestore] ∧
    (∀ msg, (get a engine).result ≠ Except.error (PyError.runtimeError msg)) := by
  have hval : validate_s3_credentials a.uri c = Except.ok () := by
    simp [validate_s3_credentials, hfalsy]
  rw [hu] at hval
  constructor
  · cases engine <;>
      simp [get, hk, hpb, hc, hval, hu, uriSplitHead, set_s3_credentials]
  · intro msg
    cases engine <;>
      simp [get, hk, hpb, hc, hval, hu, uriSplitHead, set_s3_credentials]


/-- Concrete call for refuting C1 as stated: credentials supplied non-None
but falsy, uri not S3-based. -/
def c1args : GetArgs :=
  { layer_type := "spatial", uri := PyUri.str "/tmp/a.tif",
    s3_credentials := some { isTruthy := false } }

/-- C1 counterexample: at a non-None but falsy credentials value and a
non-S3 uri, no RuntimeError is raised; the call succeeds and the engine is
invoked. -/
theorem c1_counterexample_falsy_credentials :
    c1args.s3_credentials ≠ none ∧
    is_s3_uri c1args.uri = false ∧
    (get c1args (Except.ok 7)).result =
      Except.ok { layer_type := "spatial", srdd := 7 } ∧
    Event.engineCall "ProjectedExtent" ["/tmp/a.tif"] (engineOptions c1args)
      (toString DEFAULT_PARTITION_BYTES) ∈ (get c1args (Except.ok 7)).events := by
  refine ⟨?_, rfl, rfl, ?_⟩
  · intro h
    simp [c1args] at h
  · exact List.Mem.tail _ (List.Mem.head _)

/-- Concrete call witnessing the amended C1. -/
def c1truthyArgs : GetArgs :=
  { layer_type := "spatial", uri := PyUri.str "/tmp/a.tif",
    s3_credentials := some { isTruthy := true } }

/-- Witness for the amended C1 at a concrete input. -/
theorem c1_witness_truthy_rejection :
    (get c1truthyArgs (Except.ok 7)).result =
      Except.error (PyError.runtimeError (s3ErrorMessage c1truthyArgs.uri)) ∧
    (∀ key uris os pbs,
      Event.engineCall key uris os pbs ∉ (get c1truthyArgs (Except.ok 7)).events) ∧
    (get c1truthyArgs (Except.ok 7)).events = [] :=
  c1_truthy_credentials_non_s3_rejected c1truthyArgs (Except.ok 7)
    { isTruthy := true } "ProjectedExtent" DEFAULT_PARTITION_BYTES rfl rfl rfl rfl rfl

/-- Concrete call witnessing C2. -/
def c2args : GetArgs :=
  { layer_type := "spatial", uri := PyUri.str "s3://bucket/a.tif",
    s3_credentials := some { isTruthy := true } }

/-- Witness for C2 at a concrete input, on the path where the engine call
raises. -/
theorem c2_witness_scope_restored :
    (get c2args (Except.error "engine failure")).events =
      [Event.credSet { isTruthy := true } (pySplitHead "s3://bucket/a.tif"),
       Event.engineCall "ProjectedExtent" (normalizeUris c2args.uri)
         (engineOptions c2args) (toString DEFAULT_PARTITION_BYTES),
       Event.credRestore] ∧
    List.count Event.credRestore (get c2args (Except.error "engine failure")).events = 1 ∧
    replay (some { isTruthy := false }) [] (get c2args (Except.error "engine failure")).events =
      some { isTruthy := false } :=
  c2_credential_scope_restored_exactly_once c2args (Except.error "engine failure")
    (some { isTruthy := false }) { isTruthy := true } "s3://bucket/a.tif"
    "ProjectedExtent" DEFAULT_PARTITION_BYTES rfl rfl rfl rfl rfl

/-- Concrete call witnessing C3. -/
def c3args : GetArgs :=
  { layer_type := "spatial", uri := PyUri.str "file:///tmp/a.tif" }

/-- Witness for C3 at a concrete input. -/
theorem c3_witness_no_mutation :
    (∀ c sch, Event.credSet c sch ∉ (get c3args (Except.ok 5)).events) ∧
    (Event.credRestore ∉ (get c3args (Except.ok 5)).events) ∧
    replay (some { isTruthy := true }) [] (get c3args (Except.ok 5)).events =
      some { isTruthy := true } :=
  c3_no_credentials_no_mutation c3args (Except.ok 5) (some { isTruthy := true }) rfl

/-- C5 counterexample: on a two-element uri list the scheme computation does
not yield the stringified list split at the first colon; it raises instead. -/
theorem c5_counterexample_no_stringified_split :
    uriSplitHead (PyUri.list ["a.tif", "b.tif"]) ≠
      Except.ok (pySplitHead (pyStr (PyUri.list ["a.tif", "b.tif"]))) := by
  intro h
  exact Except.noConfusion h

/-- Concrete call witnessing the amended C5. -/
def c5args : GetArgs :=
  { layer_type := "spatial", uri := PyUri.list ["a.tif", "b.tif"] }

/-- Witness for the amended C5 at a concrete input. -/
theorem c5_witness_list_attribute_error :
    uriSplitHead c5args.uri = Except.error (PyError.attributeError listSplitMessage) ∧
    (get c5args (Except.ok 7)).result =
      Except.error (PyError.attributeError listSplitMessage) ∧
    (get c5args (Except.ok 7)).events = [] ∧
    (get c5args (Except.ok 7)).urisNormalized = some ["a.tif", "b.tif"] :=
  c5_list_scheme_split_raises c5args (Except.ok 7) ["a.tif", "b.tif"]
    "ProjectedExtent" DEFAULT_PARTITION_BYTES rfl rfl rfl rfl

/-- The call of the C6 scenario: a space-time layer over a list of two
uris, no credentials, engine behaviour irrelevant. -/
def c6args : GetArgs :=
  { layer_type := "spacetime", uri := PyUri.list ["a.tif", "b.tif"] }

/-- C6 observed behaviour: the backend key does resolve to the space-time
variant and the normalized uri list has length 2 in order, but the call does
not succeed: the scheme split on the list raises an AttributeError before
the engine is invoked, contradicting the docstring, which admits a list of
paths for the uri parameter. -/
theorem c6_spacetime_list_call_raises :
    (get c6args (Except.ok 7)).keyResolved = some "TemporalProjectedExtent" ∧
    (get c6args (Except.ok 7)).urisNormalized = some ["a.tif", "b.tif"] ∧
    (get c6args (Except.ok 7)).result =
      Except.error (PyError.attributeError listSplitMessage) ∧
    (get c6args (Except.ok 7)).events = [] :=
  ⟨rfl, rfl, rfl, rfl⟩

/-- Concrete call witnessing C7. -/
def c7args : GetArgs :=
  { layer_type := "spacetime", uri := PyUri.str "hdfs://nn/a.tif" }

/-- Witness for C7 at a concrete input. -/
theorem c7_witness_singleton_list :
    (get c7args (Except.ok 7)).keyResolved =
      (get { c7args with uri := PyUri.list ["hdfs://nn/a.tif"] } (Except.ok 7)).keyResolved ∧
    (get c7args (Except.ok 7)).urisNormalized =
      (get { c7args with uri := PyUri.list ["hdfs://nn/a.tif"] } (Except.ok 7)).urisNormalized :=
  c7_string_vs_singleton_list c7args "hdfs://nn/a.tif" (Except.ok 7) rfl

/-- Concrete call witnessing C9; chunk_size 0 and time_tag empty exercise
falsy real values. -/
def c9args : GetArgs :=
  { layer_type := "spatial", uri := PyUri.str "/tmp/a.tif",
    chunk_size := some 0, time_tag := some "" }

/-- Witness for C9 at a concrete input. -/
theorem c9_witness_consumed_keys :
    List.lookup "layer_type" (engineOptions c9args) = none ∧
    List.lookup "uri" (engineOptions c9args) = none ∧
    List.lookup "s3_credentials" (engineOptions c9args) = none ∧
    List.lookup "partition_bytes" (engineOptions c9args) = none ∧
    (∀ key uris os pbs,
      Event.engineCall key uris os pbs ∈ (get c9args (Except.ok 3)).events →
        os = engineOptions c9args ∧ pbs = toString DEFAULT_PARTITION_BYTES) :=
  c9_consumed_keys_absent c9args (Except.ok 3) DEFAULT_PARTITION_BYTES rfl

/-- Concrete call witnessing C10. -/
def c10args : GetArgs :=
  { layer_type := "spatial", uri := PyUri.str "/data/b.tif",
    s3_credentials := some { isTruthy := false } }

/-- Witness for C10 at a concrete input. -/
theorem c10_witness_falsy_bypass :
    (get c10args (Except.ok 9)).events =
      [Event.credSet { isTruthy := false } (pySplitHead "/data/b.tif"),
       Event.engineCall "ProjectedExtent" (normalizeUris c10args.uri)
         (engineOptions c10args) (toString DEFAULT_PARTITION_BYTES),
       Event.credRestore] ∧
    (∀ msg, (get c10args (Except.ok 9)).result ≠ Except.error (PyError.runtimeError msg)) :=
  c10_falsy_credentials_bypass_validation c10args (Except.ok 9) { isTruthy := false }
    "/data/b.tif" "ProjectedExtent" DEFAULT_PARTITION_BYTES rfl rfl rfl rfl rfl rfl

end Geotiff
